import Mathlib

/-!
Shallow embedding of `src/python/tank/util/loader.py` (`load_plugin`) and
`src/python/tank/util/local_file_storage.py` (`LocalFileStorageManager.get_global_root`)
from the tk-core repository, together with theorems settling the claims
about them.
-/

namespace TkCore

/--
A Python class object as seen by `load_plugin`.

Fields mirror the attributes the loader inspects:
* `id`     : object identity (two loads of the same source produce distinct
             class objects, hence distinct ids, even when the names agree);
* `cname`  : the class's `__name__` attribute;
* `modname`: the class's `__module__` attribute;
* `bases`  : the class's `__bases__` tuple (direct declared parents).
-/
inductive PyClass : Type where
  | mk (id : Nat) (cname : String) (modname : String) (bases : List PyClass)

mutual
def PyClass.beq : PyClass → PyClass → Bool
  | .mk i n m bs, .mk i2 n2 m2 bs2 =>
    decide (i = i2) && decide (n = n2) && decide (m = m2) && PyClass.beqList bs bs2

def PyClass.beqList : List PyClass → List PyClass → Bool
  | [], [] => true
  | c :: cs, d :: ds => PyClass.beq c d && PyClass.beqList cs ds
  | _, _ => false
end

mutual
theorem PyClass.beq_iff_eq : ∀ a b : PyClass, PyClass.beq a b = true ↔ a = b
  | .mk i n m bs, .mk i2 n2 m2 bs2 => by
    simp only [PyClass.beq, Bool.and_eq_true, decide_eq_true_eq,
      PyClass.beqList_iff_eq bs bs2, PyClass.mk.injEq]
    tauto

theorem PyClass.beqList_iff_eq : ∀ xs ys : List PyClass, PyClass.beqList xs ys = true ↔ xs = ys
  | [], [] => by simp [PyClass.beqList]
  | [], _ :: _ => by simp [PyClass.beqList]
  | _ :: _, [] => by simp [PyClass.beqList]
  | x :: xs, y :: ys => by
    simp [PyClass.beqList, PyClass.beq_iff_eq x y, PyClass.beqList_iff_eq xs ys]
end

instance : DecidableEq PyClass :=
  fun a b => decidable_of_iff _ (PyClass.beq_iff_eq a b)

def PyClass.id : PyClass → Nat
  | .mk i _ _ _ => i

def PyClass.cname : PyClass → String
  | .mk _ n _ _ => n

def PyClass.modname : PyClass → String
  | .mk _ _ m _ => m

def PyClass.bases : PyClass → List PyClass
  | .mk _ _ _ bs => bs

/--
The string `str(cls).split("'")[1]` computed by the loader: for a top-level
class, `str(cls)` is `<class 'MODULE.NAME'>`, so the middle piece is
`__module__ ++ "." ++ __name__`.
-/
def PyClass.qualstr (c : PyClass) : String :=
  c.modname ++ "." ++ c.cname

mutual
/--
Python's `issubclass(c, b)`: reflexive-transitive closure of the direct-base
relation between class objects (object identity, here structural equality).
-/
def issubclass : PyClass → PyClass → Bool
  | .mk i n m bs, b => decide (PyClass.mk i n m bs = b) || issubclassList bs b

def issubclassList : List PyClass → PyClass → Bool
  | [], _ => false
  | c :: rest, b => issubclass c b || issubclassList rest b
end

/--
A loaded Python module as `load_plugin` sees it after a successful
`imp.load_source` / `loader.exec_module`:
* `mname`   : the module's `__name__` (the synthetic uid it was loaded under);
* `members` : the class objects among `inspect.getmembers(module, predicate)`,
  i.e. every member of the module namespace that is a class.  The same class
  object may appear more than once when it is bound to several names.
-/
structure PyModule where
  mname : String
  members : List PyClass
deriving DecidableEq

/--
Loader line 115-119: `all_classes` is the list of module members that are
classes whose `__module__` equals the module's own `__name__`.
-/
def allClasses (m : PyModule) : List PyClass :=
  m.members.filter (fun cls => decide (cls.modname = m.mname))

/--
Loader line 132-145, the per-class test for one tier: a class is kept when
`issubclass(cls, base_cls)` holds, or else when
`str(base_cls).split("'")[1]` occurs among
`[str(classer).split("'")[1] for classer in cls.__bases__]`.
-/
def matchesBase (cls base_cls : PyClass) : Bool :=
  issubclass cls base_cls
    || decide (base_cls.qualstr ∈ cls.bases.map PyClass.qualstr)

/-- The raw matches of one tier: `found_classes` right after the inner for-loop. -/
def tierFound (all_classes : List PyClass) (base_cls : PyClass) : List PyClass :=
  all_classes.filter (fun cls => matchesBase cls base_cls)

/-- Python's `list.remove(b)`: drop the first element equal to `b`. -/
def eraseFirst : List PyClass → PyClass → List PyClass
  | [], _ => []
  | c :: rest, b => if c = b then rest else c :: eraseFirst rest b

/-- Loader line 157-160: `if base in filtered_classes: filtered_classes.remove(base)`. -/
def pruneStep (filt : List PyClass) (base : PyClass) : List PyClass :=
  if base ∈ filt then eraseFirst filt base else filt

/--
Loader line 153-161: starting from a copy of `found_classes`, for each found
class and each of its `__bases__`, remove that base from the copy if present.
-/
def removeIntermediates (found_classes : List PyClass) : List PyClass :=
  found_classes.foldl
    (fun filtered_classes cls => cls.bases.foldl pruneStep filtered_classes)
    found_classes

/-- One tier's `found_classes` after the `len > 1` leaf-filtering step. -/
def tierResult (all_classes : List PyClass) (base_cls : PyClass) : List PyClass :=
  let found := tierFound all_classes base_cls
  if found.length > 1 then removeIntermediates found else found

/--
Loader line 129-164: walk `valid_base_classes` in order; each tier recomputes
`found_classes`; `break` on the first tier whose (leaf-filtered) result is
nonempty.  When no tier breaks, the final `found_classes` is the last tier's
(empty) list — i.e. `[]`.
-/
def findClasses (all_classes : List PyClass) : List PyClass → List PyClass
  | [] => []
  | base_cls :: rest =>
    let found := tierResult all_classes base_cls
    if found.isEmpty then findClasses all_classes rest else found

/--
Outcome of the load phase (try-block, loader line 73-105).  Executing the
plugin file is real I/O plus arbitrary Python evaluation, so it enters the
embedding as an oracle: either a module was produced, or some exception was
raised, carrying `sys.exc_info()`: the exception type, its value and the
formatted traceback lines (`traceback.format_tb(exc_traceback)`).
-/
inductive LoadOutcome where
  | loaded (m : PyModule)
  | raised (excType : String) (excValue : String) (tracebackLines : List String)

/--
What a call to `load_plugin` does: return a class, raise
`TankLoadPluginError` from the load-phase except-handler (line 102), or raise
`TankLoadPluginError` from the exactly-one check (line 192).  The pure
discovery phase (line 112-164) cannot raise in the embedding, so the
defensive `TankError` re-raise of line 175 is unreachable and has no
constructor here.
-/
inductive LoadPluginResult where
  | ok (cls : PyClass)
  | loadErrorRaised (msg : String)
  | pluginErrorRaised (msg : String)
deriving DecidableEq

/-- The message built in the except-handler, loader line 94-101. -/
def loadErrorMessage (plugin_file excType excValue : String)
    (tracebackLines : List String) : String :=
  "Failed to load plugin " ++ plugin_file ++ ". The following error was reported:\n"
    ++ "Exception: " ++ excType ++ " - " ++ excValue ++ "\n"
    ++ "Traceback (most recent call last):\n"
    ++ String.intercalate "\n" tracebackLines

/--
The message built when `len(found_classes) != 1`, loader line 182-188.  Its
only inputs are the file path and `valid_base_class.__name__`.
-/
def discoveryErrorMessage (plugin_file : String) (base_name : String) : String :=
  "Error loading the file \x27" ++ plugin_file
    ++ "\x27. Couldn\x27t find a single class deriving from \x27" ++ base_name
    ++ "\x27. You need to have exactly one class defined in the file deriving "
    ++ "from that base class. If your file looks fine, it is possible that the "
    ++ "cached .pyc file that python generates is invalid and this is causing "
    ++ "the error. In that case, please delete the .pyc file and try again."

/--
`load_plugin(plugin_file, valid_base_class, alternate_base_classes)`
(loader line 44-197), with the load phase abstracted by `outcome`.
`alternate_base_classes=None` is the same as the empty list (line 58).
On a raised load, the except-handler fires and discovery is never reached;
on a loaded module, discovery runs and the result must be a single class.
-/
def load_plugin (plugin_file : String) (outcome : LoadOutcome)
    (valid_base_class : PyClass) (alternate_base_classes : List PyClass) :
    LoadPluginResult :=
  match outcome with
  | .raised t v tb => .loadErrorRaised (loadErrorMessage plugin_file t v tb)
  | .loaded m =>
    let valid_base_classes := valid_base_class :: alternate_base_classes
    let found_classes := findClasses (allClasses m) valid_base_classes
    match found_classes with
    | [cls] => .ok cls
    | _ => .pluginErrorRaised
        (discoveryErrorMessage plugin_file valid_base_class.cname)

/-!
MD5 (RFC 1321), as `hashlib.md5` computes it.  Loader line 67-70 derives the
synthetic module name from the plugin path: `md5(plugin_file.encode()).hexdigest()`
(the Python 2 branch hashes the same byte string).  Machine words are `Nat`
reduced mod `2^32`.
-/

/-- Reduce to a 32-bit word. -/
def w32 (n : Nat) : Nat := n % 4294967296

/-- UTF-8 encoding of one character (what `str.encode()` produces). -/
def utf8Bytes (c : Char) : List Nat :=
  let n := c.toNat
  if n < 0x80 then [n]
  else if n < 0x800 then [0xc0 + n / 0x40, 0x80 + n % 0x40]
  else if n < 0x10000 then
    [0xe0 + n / 0x1000, 0x80 + (n / 0x40) % 0x40, 0x80 + n % 0x40]
  else
    [0xf0 + n / 0x40000, 0x80 + (n / 0x1000) % 0x40,
     0x80 + (n / 0x40) % 0x40, 0x80 + n % 0x40]

/-- The UTF-8 bytes of a string. -/
def strBytes (s : String) : List Nat :=
  (s.data.map utf8Bytes).flatten

/-- The per-round left-rotation amounts of MD5. -/
def md5S : List Nat :=
  [7, 12, 17, 22, 7, 12, 17, 22, 7, 12, 17, 22, 7, 12, 17, 22,
   5, 9, 14, 20, 5, 9, 14, 20, 5, 9, 14, 20, 5, 9, 14, 20,
   4, 11, 16, 23, 4, 11, 16, 23, 4, 11, 16, 23, 4, 11, 16, 23,
   6, 10, 15, 21, 6, 10, 15, 21, 6, 10, 15, 21, 6, 10, 15, 21]

/-- The sine-derived additive constants of MD5. -/
def md5K : List Nat :=
  [0xd76aa478, 0xe8c7b756, 0x242070db, 0xc1bdceee,
   0xf57c0faf, 0x4787c62a, 0xa8304613, 0xfd469501,
   0x698098d8, 0x8b44f7af, 0xffff5bb1, 0x895cd7be,
   0x6b901122, 0xfd987193, 0xa679438e, 0x49b40821,
   0xf61e2562, 0xc040b340, 0x265e5a51, 0xe9b6c7aa,
   0xd62f105d, 0x02441453, 0xd8a1e681, 0xe7d3fbc8,
   0x21e1cde6, 0xc33707d6, 0xf4d50d87, 0x455a14ed,
   0xa9e3e905, 0xfcefa3f8, 0x676f02d9, 0x8d2a4c8a,
   0xfffa3942, 0x8771f681, 0x6d9d6122, 0xfde5380c,
   0xa4beea44, 0x4bdecfa9, 0xf6bb4b60, 0xbebfbc70,
   0x289b7ec6, 0xeaa127fa, 0xd4ef3085, 0x04881d05,
   0xd9d4d039, 0xe6db99e5, 0x1fa27cf8, 0xc4ac5665,
   0xf4292244, 0x432aff97, 0xab9423a7, 0xfc93a039,
   0x655b59c3, 0x8f0ccc92, 0xffeff47d, 0x85845dd1,
   0x6fa87e4f, 0xfe2ce6e0, 0xa3014314, 0x4e0811a1,
   0xf7537e82, 0xbd3af235, 0x2ad7d2bb, 0xeb86d391]

/-- Bitwise complement within 32 bits. -/
def not32 (x : Nat) : Nat := 4294967295 ^^^ x

/-- Left-rotation of a 32-bit word by `s` places. -/
def rotl32 (x s : Nat) : Nat :=
  w32 (x * 2 ^ s) ||| (w32 x / 2 ^ (32 - s))

/-- The little-endian 32-bit word starting at byte `4*g` of a block. -/
def wordLE (block : List Nat) (g : Nat) : Nat :=
  block.getD (4 * g) 0 + 256 * block.getD (4 * g + 1) 0
    + 65536 * block.getD (4 * g + 2) 0 + 16777216 * block.getD (4 * g + 3) 0

/-- One of the 64 MD5 rounds applied to the state `(a, b, c, d)`. -/
def md5Round (block : List Nat) (st : Nat × Nat × Nat × Nat) (i : Nat) :
    Nat × Nat × Nat × Nat :=
  let (a, b, c, d) := st
  let f :=
    if i < 16 then (b &&& c) ||| (not32 b &&& d)
    else if i < 32 then (d &&& b) ||| (not32 d &&& c)
    else if i < 48 then b ^^^ c ^^^ d
    else c ^^^ (b ||| not32 d)
  let g :=
    if i < 16 then i
    else if i < 32 then (5 * i + 1) % 16
    else if i < 48 then (3 * i + 5) % 16
    else (7 * i) % 16
  let rot := rotl32 (w32 (a + f + md5K.getD i 0 + wordLE block g)) (md5S.getD i 0)
  (d, w32 (b + rot), b, c)

/-- Process one 64-byte block, updating the running state. -/
def md5ProcessBlock (st : Nat × Nat × Nat × Nat) (block : List Nat) :
    Nat × Nat × Nat × Nat :=
  let r := (List.range 64).foldl (md5Round block) st
  (w32 (st.1 + r.1), w32 (st.2.1 + r.2.1), w32 (st.2.2.1 + r.2.2.1),
   w32 (st.2.2.2 + r.2.2.2))

/-- Split a byte list into 64-byte blocks; `fuel` bounds the recursion and
any `fuel ≥ length` is enough, since each step consumes 64 bytes. -/
def toBlocksFuel : Nat → List Nat → List (List Nat)
  | 0, _ => []
  | _, [] => []
  | fuel + 1, x :: xs => ((x :: xs).take 64) :: toBlocksFuel fuel (xs.drop 63)

/-- Split a byte list into 64-byte blocks. -/
def toBlocks (l : List Nat) : List (List Nat) :=
  toBlocksFuel l.length l

/-- The eight little-endian bytes of the 64-bit message bit length. -/
def le8 (n : Nat) : List Nat :=
  [n % 256, n / 256 % 256, n / 65536 % 256, n / 16777216 % 256,
   n / 4294967296 % 256, n / 1099511627776 % 256,
   n / 281474976710656 % 256, n / 72057594037927936 % 256]

/-- MD5 padding: append `0x80`, zeros to 56 mod 64, then the bit length. -/
def md5Pad (msg : List Nat) : List Nat :=
  let padZeros := (64 + 56 - (msg.length + 1) % 64) % 64
  msg ++ [0x80] ++ List.replicate padZeros 0 ++ le8 (8 * msg.length % 2 ^ 64)

/-- The four 32-bit state words after digesting the UTF-8 bytes of `s`. -/
def md5final (s : String) : Nat × Nat × Nat × Nat :=
  (toBlocks (md5Pad (strBytes s))).foldl md5ProcessBlock
    (0x67452301, 0xefcdab89, 0x98badcfe, 0x10325476)

/-- A lowercase hexadecimal digit. -/
def hexDigit (n : Nat) : Char :=
  if n < 10 then Char.ofNat (48 + n) else Char.ofNat (87 + n)

/-- Two lowercase hex characters for one byte. -/
def byteHex (b : Nat) : String :=
  String.mk [hexDigit (b / 16 % 16), hexDigit (b % 16)]

/-- The hex rendering of one state word, little-endian byte order. -/
def wordHexLE (w : Nat) : String :=
  byteHex (w % 256) ++ byteHex (w / 256 % 256) ++ byteHex (w / 65536 % 256)
    ++ byteHex (w / 16777216 % 256)

/-- `hashlib.md5(s.encode()).hexdigest()`. -/
def md5hex (s : String) : String :=
  let r := md5final s
  wordHexLE r.1 ++ wordHexLE r.2.1 ++ wordHexLE r.2.2.1 ++ wordHexLE r.2.2.2

/-- Loader line 67-70: the synthetic module name for a plugin path. -/
def module_uid (plugin_file : String) : String :=
  md5hex plugin_file

/-- The `sys.modules` registry: an insertion-ordered map from name to module. -/
def SysModules : Type := List (String × PyModule)

/-- Python dict lookup `sys.modules[k]`. -/
def dictLookup : List (String × PyModule) → String → Option PyModule
  | [], _ => none
  | (k2, v) :: rest, k => if k2 = k then some v else dictLookup rest k

/-- Python dict assignment `d[k] = m`: replace in place, or append a new key. -/
def dictSet : List (String × PyModule) → String → PyModule → List (String × PyModule)
  | [], k, m => [(k, m)]
  | (k2, v) :: rest, k, m =>
    if k2 = k then (k, m) :: rest else (k2, v) :: dictSet rest k m

/--
`load_plugin` with the `sys.modules` state made explicit.  On the Python 3
path (loader line 78-82) a successfully executed module is stored into
`sys.modules` under the synthetic uid before discovery runs (the Python 2
path's `imp.load_source` registers it the same way); when the load raises,
the handler fires before any registration and the registry is unchanged.
-/
def load_pluginS (sysmodules : List (String × PyModule)) (plugin_file : String)
    (outcome : LoadOutcome) (valid_base_class : PyClass)
    (alternate_base_classes : List PyClass) :
    LoadPluginResult × List (String × PyModule) :=
  match outcome with
  | .raised t v tb =>
    (.loadErrorRaised (loadErrorMessage plugin_file t v tb), sysmodules)
  | .loaded m =>
    (load_plugin plugin_file (.loaded m) valid_base_class alternate_base_classes,
     dictSet sysmodules (module_uid plugin_file) m)

/-!
Embedding of `LocalFileStorageManager.get_global_root`
(`src/python/tank/util/local_file_storage.py` line 45-140).
-/

/-- `LocalFileStorageManager.CORE_V17` (`range(2)` unpacking, line 40). -/
def CORE_V17 : Int := 0

/-- `LocalFileStorageManager.CORE_V18`. -/
def CORE_V18 : Int := 1

/-- `LocalFileStorageManager.LOGGING` (`range(3)` unpacking, line 43). -/
def LOGGING : Int := 0

/-- `LocalFileStorageManager.CACHE`. -/
def CACHE : Int := 1

/-- `LocalFileStorageManager.PERSISTENT`. -/
def PERSISTENT : Int := 2

/--
The host facts `get_global_root` consults: `sys.platform`, the
`os.path.expanduser` expansion, `os.environ.get("APPDATA")` and the path
separator `os.path.join` inserts.
-/
structure PyEnv where
  platform : String
  expanduser : String → String
  appdata : Option String
  sep : String

/-- Python `str.startswith`: character-prefix test. -/
def startswith (s pre : String) : Bool :=
  pre.data.isPrefixOf s.data

/-- Two-argument `os.path.join`. -/
def pathjoin (env : PyEnv) (a b : String) : String :=
  a ++ env.sep ++ b

/-- Three-argument `os.path.join`. -/
def pathjoin3 (env : PyEnv) (a b c : String) : String :=
  a ++ env.sep ++ b ++ env.sep ++ c

/-- `os.environ.get("APPDATA", "APPDATA_NOT_SET")`. -/
def appdataOr (env : PyEnv) : String :=
  env.appdata.getD "APPDATA_NOT_SET"

/--
`LocalFileStorageManager.get_global_root(path_type, generation)`.  `.ok (some p)`
is a returned path, `.error msg` a raised `ValueError`, and `.ok none` the
implicit `None` when control falls off the end of the method (both `if
generation == ...` tests fail).  The source writes two consecutive `if`
statements, but every path inside the first one returns or raises, so
`else if` is equivalent.
-/
def get_global_root (env : PyEnv) (path_type : Int) (generation : Int) :
    Except String (Option String) :=
  if generation = CORE_V18 then
    if env.platform = "darwin" then
      if path_type = CACHE then
        .ok (some (env.expanduser "~/Library/Caches/Shotgun"))
      else if path_type = PERSISTENT then
        .ok (some (env.expanduser "~/Library/Application Support/Shotgun"))
      else if path_type = LOGGING then
        .ok (some (env.expanduser "~/Library/Logs/Shotgun"))
      else .error "Unsupported path type!"
    else if env.platform = "win32" then
      if path_type = CACHE then
        .ok (some (pathjoin env (appdataOr env) "Shotgun"))
      else if path_type = PERSISTENT then
        .ok (some (pathjoin3 env (appdataOr env) "Shotgun" "Data"))
      else if path_type = LOGGING then
        .ok (some (pathjoin3 env (appdataOr env) "Shotgun" "Logs"))
      else .error "Unsupported path type!"
    else if startswith env.platform "linux" then
      if path_type = CACHE then
        .ok (some (env.expanduser "~/.shotgun"))
      else if path_type = PERSISTENT then
        .ok (some (env.expanduser "~/.shotgun/data"))
      else if path_type = LOGGING then
        .ok (some (env.expanduser "~/.shotgun/logs"))
      else .error "Unsupported path type!"
    else .error ("Unknown platform: " ++ env.platform)
  else if generation = CORE_V17 then
    if env.platform = "darwin" then
      if path_type = CACHE then
        .ok (some (env.expanduser "~/Library/Caches/Shotgun"))
      else if path_type = PERSISTENT then
        .ok (some (env.expanduser "~/Library/Application Support/Shotgun"))
      else if path_type = LOGGING then
        .ok (some (env.expanduser "~/Library/Logs/Shotgun"))
      else .error "Unsupported path type!"
    else if env.platform = "win32" then
      if path_type = CACHE then
        .ok (some (pathjoin env (appdataOr env) "Shotgun"))
      else if path_type = PERSISTENT then
        .ok (some (pathjoin env (appdataOr env) "Shotgun"))
      else if path_type = LOGGING then
        .ok (some (pathjoin env (appdataOr env) "Shotgun"))
      else .error "Unsupported path type!"
    else if startswith env.platform "linux" then
      if path_type = CACHE then
        .ok (some (env.expanduser "~/.shotgun"))
      else if path_type = PERSISTENT then
        .ok (some (env.expanduser "~/.shotgun"))
      else if path_type = LOGGING then
        .ok (some (env.expanduser "~/.shotgun"))
      else .error "Unsupported path type!"
    else .error ("Unknown platform: " ++ env.platform)
  else .ok none

/-!
Concrete fixtures used by witnesses and counterexamples.  `hookBase` plays
the requested base class (e.g. `tank.hook.Hook`); classes whose `modname` is
`"MOD"` are the ones the plugin module defines itself.
-/

/-- The requested base class, defined in another module. -/
def hookBase : PyClass := .mk 0 "Hook" "tank.hook" []

/-- `class A(Hook)` defined in the plugin module. -/
def clsA : PyClass := .mk 1 "A" "MOD" [hookBase]

/-- `class B(A)` defined in the plugin module: the leaf of the chain. -/
def clsB : PyClass := .mk 2 "B" "MOD" [clsA]

/-- `class B2(Hook)`: a second, unrelated direct subclass. -/
def clsB2 : PyClass := .mk 3 "B2" "MOD" [hookBase]

/-- An alternate (fallback) base class from a different module. -/
def altBase : PyClass := .mk 4 "AltHook" "tank.alt" []

/-- `class F(AltHook)`: matches only the fallback tier. -/
def clsF : PyClass := .mk 5 "F" "MOD" [altBase]

/--
The base class reloaded under the same source path: a distinct class object
(id 6) with the same `__module__` and `__name__` as `hookBase`, which is
exactly the situation `issubclass` misjudges and the textual check repairs.
-/
def hookTwin : PyClass := .mk 6 "Hook" "tank.hook" []

/-- `class T(Hook)` where `Hook` is the original object, not the twin. -/
def clsT : PyClass := .mk 7 "T" "MOD" [hookBase]

/-- A `Hook` subclass merely imported from another module. -/
def clsImp : PyClass := .mk 8 "Imp" "othermod" [hookBase]

/-- Module defining the chain `A(Hook)`, `B(A)`. -/
def chainModule : PyModule := ⟨"MOD", [clsA, clsB]⟩

/-- The chain module with `A` additionally bound to a second name, so the
class object `A` occurs twice among the members. -/
def dupModule : PyModule := ⟨"MOD", [clsA, clsA, clsB]⟩

/-- Module defining two unrelated subclasses of the base. -/
def twoModule : PyModule := ⟨"MOD", [clsA, clsB2]⟩

/-- Module defining no classes at all. -/
def emptyModule : PyModule := ⟨"MOD", []⟩

/-- Module whose only class matches the fallback tier. -/
def fallbackModule : PyModule := ⟨"MOD", [clsF]⟩

/-- Module with one class per tier: `A` for the preferred base, `F` for the
fallback. -/
def bothModule : PyModule := ⟨"MOD", [clsA, clsF]⟩

/-- Module whose only class matches the base textually but not formally
(the requested base is `hookTwin`). -/
def textModule : PyModule := ⟨"MOD", [clsT]⟩

/-- Module whose only class member was imported from another module. -/
def importModule : PyModule := ⟨"MOD", [clsImp]⟩

/-- A macOS host environment. -/
def darwinEnv : PyEnv := ⟨"darwin", fun s => "/Users/u/" ++ s, none, "/"⟩

/-- A host whose platform string none of the branches recognize. -/
def sunosEnv : PyEnv := ⟨"sunos5", fun s => "/export/home/u/" ++ s, none, "/"⟩

/-- All four state words of an MD5 state lie below `2^32`. -/
def Bounded32 (st : Nat × Nat × Nat × Nat) : Prop :=
  st.1 < 4294967296 ∧ st.2.1 < 4294967296 ∧ st.2.2.1 < 4294967296 ∧
    st.2.2.2 < 4294967296

/-- An injection of the naturals into path strings. -/
def pathOfNat (n : Nat) : String :=
  String.mk (List.replicate n 'a')

/-- The MD5 state packaged into a finite type (the digest has `2^128`
possible values, so this map cannot be injective on all strings). -/
def md5digestFin (s : String) :
    Fin 4294967296 × Fin 4294967296 × Fin 4294967296 × Fin 4294967296 :=
  ⟨⟨w32 (md5final s).1, Nat.mod_lt _ (by decide)⟩,
   ⟨w32 (md5final s).2.1, Nat.mod_lt _ (by decide)⟩,
   ⟨w32 (md5final s).2.2.1, Nat.mod_lt _ (by decide)⟩,
   ⟨w32 (md5final s).2.2.2, Nat.mod_lt _ (by decide)⟩⟩

/-!
Helper lemmas.
-/

theorem eraseFirst_subset (l : List PyClass) (b x : PyClass)
    (h : x ∈ eraseFirst l b) : x ∈ l := by
  induction l with
  | nil => simp [eraseFirst] at h
  | cons c rest ih =>
    by_cases hc : c = b
    · rw [eraseFirst, if_pos hc] at h
      exact List.mem_cons_of_mem _ h
    · rw [eraseFirst, if_neg hc] at h
      rcases List.mem_cons.mp h with h | h
      · exact h ▸ List.mem_cons_self _ _
      · exact List.mem_cons_of_mem _ (ih h)

theorem eraseFirst_of_not_mem (l : List PyClass) (b : PyClass) (h : b ∉ l) :
    eraseFirst l b = l := by
  induction l with
  | nil => rfl
  | cons c rest ih =>
    have hcb : ¬ c = b := fun e => h (by rw [← e]; exact List.mem_cons_self _ _)
    rw [eraseFirst, if_neg hcb, ih (fun hb => h (List.mem_cons_of_mem _ hb))]

theorem pruneStep_eq_eraseFirst (l : List PyClass) (b : PyClass) :
    pruneStep l b = eraseFirst l b := by
  by_cases h : b ∈ l
  · rw [pruneStep, if_pos h]
  · rw [pruneStep, if_neg h, eraseFirst_of_not_mem l b h]

theorem pruneStep_subset (l : List PyClass) (b x : PyClass)
    (h : x ∈ pruneStep l b) : x ∈ l := by
  rw [pruneStep_eq_eraseFirst] at h
  exact eraseFirst_subset l b x h

theorem foldl_pruneStep_subset (bs : List PyClass) :
    ∀ l x, x ∈ bs.foldl pruneStep l → x ∈ l := by
  induction bs with
  | nil => intro l x h; simpa using h
  | cons b bs ih =>
    intro l x h
    rw [List.foldl_cons] at h
    exact pruneStep_subset _ _ _ (ih _ _ h)

theorem removeIntermediates_subset (found : List PyClass) (x : PyClass)
    (h : x ∈ removeIntermediates found) : x ∈ found := by
  rw [removeIntermediates] at h
  suffices haux : ∀ (fs acc : List PyClass),
      x ∈ fs.foldl (fun a c => c.bases.foldl pruneStep a) acc → x ∈ acc from
    haux found found h
  intro fs
  induction fs with
  | nil => intro acc hx; simpa using hx
  | cons c fs ih =>
    intro acc hx
    rw [List.foldl_cons] at hx
    exact foldl_pruneStep_subset _ _ _ (ih _ hx)

theorem tierFound_subset (all : List PyClass) (b x : PyClass)
    (h : x ∈ tierFound all b) : x ∈ all :=
  (List.mem_filter.mp h).1

theorem tierResult_subset (all : List PyClass) (b x : PyClass)
    (h : x ∈ tierResult all b) : x ∈ all := by
  rw [tierResult] at h
  by_cases hl : (tierFound all b).length > 1
  · rw [if_pos hl] at h
    exact tierFound_subset all b x (removeIntermediates_subset _ x h)
  · rw [if_neg hl] at h
    exact tierFound_subset all b x h

theorem findClasses_subset (all : List PyClass) (bases : List PyClass) (x : PyClass)
    (h : x ∈ findClasses all bases) : x ∈ all := by
  induction bases with
  | nil => simp [findClasses] at h
  | cons b rest ih =>
    rw [findClasses] at h
    by_cases he : (tierResult all b).isEmpty
    · rw [if_pos he] at h
      exact ih h
    · rw [if_neg he] at h
      exact tierResult_subset all b x h

theorem eraseFirst_eq_filter (l : List PyClass) (b : PyClass) (h : l.Nodup) :
    eraseFirst l b = l.filter (fun x => decide (x ≠ b)) := by
  induction l with
  | nil => rfl
  | cons c rest ih =>
    rcases List.nodup_cons.mp h with ⟨hc, hrest⟩
    by_cases hcb : c = b
    · subst hcb
      rw [eraseFirst, if_pos rfl, List.filter_cons]
      have hfalse : decide (c ≠ c) = false := by simp
      rw [hfalse]
      simp only [Bool.false_eq_true, if_false]
      symm
      apply List.filter_eq_self.mpr
      intro x hx
      have hxc : x ≠ c := fun e => hc (by rw [← e]; exact hx)
      simp [hxc]
    · rw [eraseFirst, if_neg hcb, List.filter_cons, ih hrest]
      have htrue : decide (c ≠ b) = true := by simp [hcb]
      rw [htrue]
      simp

theorem foldl_pruneStep_eq_filter (bs : List PyClass) :
    ∀ l : List PyClass, l.Nodup →
      bs.foldl pruneStep l = l.filter (fun x => decide (x ∉ bs)) := by
  induction bs with
  | nil =>
    intro l _
    simp
  | cons b bs ih =>
    intro l h
    rw [List.foldl_cons, pruneStep_eq_eraseFirst, eraseFirst_eq_filter l b h,
      ih _ (h.filter _), List.filter_filter]
    apply List.filter_congr
    intro x _
    by_cases hb : x = b
    · simp [hb]
    · by_cases hbs : x ∈ bs <;> simp [hb, hbs]

theorem removeIntermediates_eq_filter (found : List PyClass) (h : found.Nodup) :
    removeIntermediates found =
      found.filter (fun x => decide (∀ c ∈ found, x ∉ c.bases)) := by
  rw [removeIntermediates]
  suffices haux : ∀ (fs acc : List PyClass), acc.Nodup →
      fs.foldl (fun a c => c.bases.foldl pruneStep a) acc =
        acc.filter (fun x => decide (∀ c ∈ fs, x ∉ c.bases)) from haux found found h
  intro fs
  induction fs with
  | nil =>
    intro acc _
    symm
    apply List.filter_eq_self.mpr
    intro a _
    simp
  | cons c fs ih =>
    intro acc hacc
    rw [List.foldl_cons, foldl_pruneStep_eq_filter _ _ hacc, ih _ (hacc.filter _),
      List.filter_filter]
    apply List.filter_congr
    intro x _
    by_cases hc : x ∈ c.bases
    · simp [hc]
    · by_cases hfs : ∀ d ∈ fs, x ∉ d.bases <;> simp [hc, hfs]

theorem dictLookup_dictSet_self (sm : List (String × PyModule)) (k : String)
    (m : PyModule) : dictLookup (dictSet sm k m) k = some m := by
  induction sm with
  | nil => simp [dictSet, dictLookup]
  | cons p rest ih =>
    obtain ⟨k2, v⟩ := p
    by_cases h : k2 = k
    · rw [dictSet, if_pos h, dictLookup, if_pos rfl]
    · rw [dictSet, if_neg h, dictLookup, if_neg h, ih]

theorem dictLookup_dictSet_ne (sm : List (String × PyModule)) (k q : String)
    (m : PyModule) (h : q ≠ k) : dictLookup (dictSet sm k m) q = dictLookup sm q := by
  have hkq : ¬ k = q := fun e => h (Eq.symm e)
  induction sm with
  | nil => simp [dictSet, dictLookup, hkq]
  | cons p rest ih =>
    obtain ⟨k2, v⟩ := p
    by_cases h2 : k2 = k
    · rw [dictSet, if_pos h2, dictLookup, if_neg hkq, dictLookup, h2, if_neg hkq]
    · rw [dictSet, if_neg h2, dictLookup, dictLookup]
      by_cases h3 : k2 = q
      · rw [if_pos h3, if_pos h3]
      · rw [if_neg h3, if_neg h3, ih]

theorem w32_lt (n : Nat) : w32 n < 4294967296 :=
  Nat.mod_lt _ (by decide)

theorem md5ProcessBlock_bounded (st : Nat × Nat × Nat × Nat) (block : List Nat) :
    Bounded32 (md5ProcessBlock st block) :=
  ⟨w32_lt _, w32_lt _, w32_lt _, w32_lt _⟩

theorem md5final_bounded (s : String) : Bounded32 (md5final s) := by
  rw [md5final]
  generalize toBlocks (md5Pad (strBytes s)) = blocks
  suffices haux : ∀ (bl : List (List Nat)) (st : Nat × Nat × Nat × Nat),
      Bounded32 st → Bounded32 (bl.foldl md5ProcessBlock st) from
    haux blocks _ (by constructor <;> norm_num)
  intro bl
  induction bl with
  | nil => intro st h; simpa using h
  | cons b bl ih =>
    intro st _
    rw [List.foldl_cons]
    exact ih _ (md5ProcessBlock_bounded st b)

theorem pathOfNat_injective : Function.Injective pathOfNat := by
  intro m n h
  have h2 : (pathOfNat m).data = (pathOfNat n).data := by rw [h]
  simp only [pathOfNat] at h2
  have h3 := congrArg List.length h2
  simpa using h3

theorem md5hex_eq_of_digestFin_eq (p q : String)
    (h : md5digestFin p = md5digestFin q) : md5hex p = md5hex q := by
  have hp := md5final_bounded p
  have hq := md5final_bounded q
  have e1 := congrArg (fun t => t.1.val) h
  have e2 := congrArg (fun t => t.2.1.val) h
  have e3 := congrArg (fun t => t.2.2.1.val) h
  have e4 := congrArg (fun t => t.2.2.2.val) h
  simp only [md5digestFin, w32] at e1 e2 e3 e4
  rw [Nat.mod_eq_of_lt hp.1, Nat.mod_eq_of_lt hq.1] at e1
  rw [Nat.mod_eq_of_lt hp.2.1, Nat.mod_eq_of_lt hq.2.1] at e2
  rw [Nat.mod_eq_of_lt hp.2.2.1, Nat.mod_eq_of_lt hq.2.2.1] at e3
  rw [Nat.mod_eq_of_lt hp.2.2.2, Nat.mod_eq_of_lt hq.2.2.2] at e4
  have hfinal : md5final p = md5final q :=
    Prod.ext_iff.mpr ⟨e1, Prod.ext_iff.mpr ⟨e2, Prod.ext_iff.mpr ⟨e3, e4⟩⟩⟩
  simp only [md5hex]
  rw [hfinal]

theorem load_plugin_ok_iff (plugin_file : String) (m : PyModule) (b : PyClass)
    (alts : List PyClass) (cls : PyClass) :
    load_plugin plugin_file (.loaded m) b alts = .ok cls ↔
      findClasses (allClasses m) (b :: alts) = [cls] := by
  simp only [load_plugin]
  rcases hfc : findClasses (allClasses m) (b :: alts) with _ | ⟨c, _ | ⟨d, rest⟩⟩
  · simp
  · simp
  · simp

theorem load_plugin_length_ne_one (plugin_file : String) (m : PyModule)
    (b : PyClass) (alts : List PyClass)
    (h : (findClasses (allClasses m) (b :: alts)).length ≠ 1) :
    load_plugin plugin_file (.loaded m) b alts =
      .pluginErrorRaised (discoveryErrorMessage plugin_file b.cname) := by
  simp only [load_plugin]
  rcases hfc : findClasses (allClasses m) (b :: alts) with _ | ⟨c, _ | ⟨d, rest⟩⟩
  · rfl
  · rw [hfc] at h
    simp at h
  · rfl

/-!
Claim theorems.
-/

set_option maxRecDepth 16384

/-- C1: on a loaded module, `load_plugin` returns `cls` exactly when the
candidate reduction leaves precisely `[cls]`; whenever the surviving list
does not have exactly one element it raises `TankLoadPluginError` (the
discovery-failure message), and never silently picks one of several
candidates. -/
theorem load_plugin_exactly_one (plugin_file : String) (m : PyModule)
    (valid_base_class : PyClass) (alternate_base_classes : List PyClass) :
    (∀ cls : PyClass,
      load_plugin plugin_file (.loaded m) valid_base_class alternate_base_classes
          = .ok cls ↔
        findClasses (allClasses m) (valid_base_class :: alternate_base_classes)
          = [cls]) ∧
    ((findClasses (allClasses m) (valid_base_class :: alternate_base_classes)).length
        ≠ 1 →
      load_plugin plugin_file (.loaded m) valid_base_class alternate_base_classes =
        .pluginErrorRaised
          (discoveryErrorMessage plugin_file valid_base_class.cname)) :=
  ⟨fun cls =>
    load_plugin_ok_iff plugin_file m valid_base_class alternate_base_classes cls,
   load_plugin_length_ne_one plugin_file m valid_base_class alternate_base_classes⟩

/-- C1 witness: the chain module has one survivor (B) and it is returned; the
two-subclass module has two survivors and the call raises. -/
theorem load_plugin_exactly_one_witness :
    load_plugin "plug.py" (.loaded chainModule) hookBase [] = .ok clsB ∧
    (findClasses (allClasses twoModule) (hookBase :: [])).length ≠ 1 ∧
    load_plugin "plug.py" (.loaded twoModule) hookBase [] =
      .pluginErrorRaised (discoveryErrorMessage "plug.py" hookBase.cname) :=
  ⟨((load_plugin_exactly_one "plug.py" chainModule hookBase []).1 clsB).mpr
      (by decide),
   by decide,
   (load_plugin_exactly_one "plug.py" twoModule hookBase []).2 (by decide)⟩

/-- C2: base tiers are consulted strictly in list order; the first tier whose
filtered candidate list is nonempty supplies the whole answer, later tiers
are never consulted and candidates are never merged across tiers; with tiers
`[P, F]`, a module matching only `F` yields the `F` result, and a module
where `P` matches yields only the `P` result. -/
theorem findClasses_tier_priority (all : List PyClass) (b : PyClass)
    (rest rest2 : List PyClass) (P F : PyClass) :
    (tierResult all b ≠ [] →
      findClasses all (b :: rest) = tierResult all b ∧
      findClasses all (b :: rest) = findClasses all (b :: rest2)) ∧
    (tierResult all b = [] →
      findClasses all (b :: rest) = findClasses all rest) ∧
    (tierResult all P = [] → findClasses all [P, F] = tierResult all F) ∧
    (tierResult all P ≠ [] → findClasses all [P, F] = tierResult all P) := by
  have step : ∀ (c : PyClass) (r : List PyClass),
      findClasses all (c :: r) =
        if (tierResult all c).isEmpty then findClasses all r
        else tierResult all c :=
    fun c r => by rw [findClasses]
  refine ⟨?_, ?_, ?_, ?_⟩
  · intro hne
    rcases htr : tierResult all b with _ | ⟨c0, cr⟩
    · exact absurd htr hne
    · rw [step b rest, step b rest2, htr]
      simp [List.isEmpty]
  · intro he
    rw [step b rest, he]
    simp [List.isEmpty]
  · intro hP
    rw [step P [F], hP]
    simp only [List.isEmpty, if_true]
    rcases htr : tierResult all F with _ | ⟨c0, cr⟩
    · rw [step F [], htr]
      simp [List.isEmpty, findClasses]
    · rw [step F [], htr]
      simp [List.isEmpty]
  · intro hne
    rcases htr : tierResult all P with _ | ⟨c0, cr⟩
    · exact absurd htr hne
    · rw [step P [F], htr]
      simp [List.isEmpty]

/-- C2 witness: with tiers `[hookBase, altBase]`, the fallback-only module is
answered by the fallback tier (class F), and the both-tier module is answered
by the preferred tier alone (class A), ignoring F. -/
theorem findClasses_tier_priority_witness :
    tierResult (allClasses fallbackModule) hookBase = [] ∧
    findClasses (allClasses fallbackModule) [hookBase, altBase] =
      tierResult (allClasses fallbackModule) altBase ∧
    load_plugin "plug.py" (.loaded fallbackModule) hookBase [altBase] = .ok clsF ∧
    tierResult (allClasses bothModule) hookBase ≠ [] ∧
    findClasses (allClasses bothModule) [hookBase, altBase] =
      tierResult (allClasses bothModule) hookBase ∧
    load_plugin "plug.py" (.loaded bothModule) hookBase [altBase] = .ok clsA :=
  ⟨by decide,
   (findClasses_tier_priority (allClasses fallbackModule) hookBase [] []
      hookBase altBase).2.2.1 (by decide),
   by decide,
   by decide,
   (findClasses_tier_priority (allClasses bothModule) hookBase [] []
      hookBase altBase).2.2.2 (by decide),
   by decide⟩

/-- C3 counterexample: in a module where the matched class A is bound to two
names (so it occurs twice among the members) and B derives from A, the tier
matches more than one entry and A is a direct parent of the matched B, yet A
still survives the filtering (only its first occurrence is removed) and
`load_plugin` raises instead of returning the leaf B. -/
theorem removeIntermediates_dup_alias_counterexample :
    (tierFound (allClasses dupModule) hookBase).length > 1 ∧
    clsB ∈ tierFound (allClasses dupModule) hookBase ∧
    clsA ∈ clsB.bases ∧
    clsA ∈ tierResult (allClasses dupModule) hookBase ∧
    load_plugin "plug.py" (.loaded dupModule) hookBase [] =
      .pluginErrorRaised (discoveryErrorMessage "plug.py" "Hook") := by
  decide

/-- C3 (amended): when a tier matches more than one candidate entry, each
direct parent of a matched class has its first remaining occurrence removed;
in particular when the matched entries are pairwise distinct, filtering
removes exactly the classes that are a direct parent of some matched class,
so a file defining the chain `A(Base)`, `B(A)` with each class listed once
yields exactly the leaf B. -/
theorem removeIntermediates_leaves_leaves :
    (∀ found : List PyClass, found.Nodup →
      removeIntermediates found =
        found.filter (fun x => decide (∀ c ∈ found, x ∉ c.bases))) ∧
    load_plugin "plug.py" (.loaded chainModule) hookBase [] = .ok clsB :=
  ⟨removeIntermediates_eq_filter, by decide⟩

/-- C3 witness: the duplicate-free chain candidates `[A, B]` filter down to
the classes that are not a direct parent of another candidate. -/
theorem removeIntermediates_leaves_leaves_witness :
    ([clsA, clsB] : List PyClass).Nodup ∧
    removeIntermediates [clsA, clsB] =
      [clsA, clsB].filter (fun x => decide (∀ c ∈ [clsA, clsB], x ∉ c.bases)) :=
  ⟨by decide, removeIntermediates_leaves_leaves.1 [clsA, clsB] (by decide)⟩

/-- C4 counterexample: a zero-match module and an ambiguous two-match module
produce literally identical errors, so the ambiguous-match message neither
cites the colliding class definitions nor is distinguishable from the
zero-match message. -/
theorem discovery_error_indistinguishable_counterexample :
    (findClasses (allClasses emptyModule) [hookBase]).length = 0 ∧
    (findClasses (allClasses twoModule) [hookBase]).length = 2 ∧
    load_plugin "plug.py" (.loaded emptyModule) hookBase [] =
      load_plugin "plug.py" (.loaded twoModule) hookBase [] := by
  decide

/-- C4 (amended): every post-load discovery failure — zero survivors or two
or more survivors alike — raises `TankLoadPluginError` with one shared
message template determined only by the file path and the preferred base
class name; the message embeds both of those but never the colliding class
definitions, so the two failure kinds are not distinguishable by message. -/
theorem discovery_error_single_message (plugin_file : String) (m : PyModule)
    (b : PyClass) (alts : List PyClass)
    (h : (findClasses (allClasses m) (b :: alts)).length ≠ 1) :
    load_plugin plugin_file (.loaded m) b alts =
      .pluginErrorRaised (discoveryErrorMessage plugin_file b.cname) ∧
    discoveryErrorMessage plugin_file b.cname =
      "Error loading the file \x27" ++ plugin_file
        ++ "\x27. Couldn\x27t find a single class deriving from \x27" ++ b.cname
        ++ "\x27. You need to have exactly one class defined in the file deriving "
        ++ "from that base class. If your file looks fine, it is possible that the "
        ++ "cached .pyc file that python generates is invalid and this is causing "
        ++ "the error. In that case, please delete the .pyc file and try again." :=
  ⟨load_plugin_length_ne_one plugin_file m b alts h, rfl⟩

/-- C4 witness: the ambiguous module indeed has a non-single survivor count
and raises with the shared template. -/
theorem discovery_error_single_message_witness :
    (findClasses (allClasses twoModule) (hookBase :: [])).length ≠ 1 ∧
    load_plugin "plug.py" (.loaded twoModule) hookBase [] =
      .pluginErrorRaised (discoveryErrorMessage "plug.py" hookBase.cname) :=
  ⟨by decide,
   (discovery_error_single_message "plug.py" twoModule hookBase [] (by decide)).1⟩

/-- C5: a class of the loaded unit matches a tier exactly when it passes the
formal `issubclass` check or the fully-qualified name of the tier base
occurs among the textual names of its direct declared parents; a
textual-only match is treated like a formal one (the twin-base module
returns its class even though `issubclass` reports false). -/
theorem matches_formal_or_textual :
    (∀ (all : List PyClass) (b cls : PyClass),
      cls ∈ tierFound all b ↔
        cls ∈ all ∧
          (issubclass cls b = true ∨
            b.qualstr ∈ cls.bases.map PyClass.qualstr)) ∧
    issubclass clsT hookTwin = false ∧
    hookTwin.qualstr ∈ clsT.bases.map PyClass.qualstr ∧
    load_plugin "plug.py" (.loaded textModule) hookTwin [] = .ok clsT := by
  refine ⟨?_, by decide, by decide, by decide⟩
  intro all b cls
  rw [tierFound, List.mem_filter]
  simp [matchesBase]

/-- C5 witness: the textual-only class is selected by the tier filter. -/
theorem matches_formal_or_textual_witness :
    clsT ∈ tierFound (allClasses textModule) hookTwin :=
  (matches_formal_or_textual.1 (allClasses textModule) hookTwin clsT).mpr
    ⟨by decide, Or.inr (by decide)⟩

/-- C6: when the load phase raises, `load_plugin` raises
`TankLoadPluginError` whose message is built from the file path, the
exception type and value, and the joined formatted-traceback lines; it never
returns a class and never reaches the discovery-failure error. -/
theorem load_failure_raises_load_error (plugin_file excType excValue : String)
    (tb : List String) (b : PyClass) (alts : List PyClass) :
    load_plugin plugin_file (.raised excType excValue tb) b alts =
      .loadErrorRaised (loadErrorMessage plugin_file excType excValue tb) ∧
    loadErrorMessage plugin_file excType excValue tb =
      "Failed to load plugin " ++ plugin_file
        ++ ". The following error was reported:\n" ++ "Exception: " ++ excType
        ++ " - " ++ excValue ++ "\n" ++ "Traceback (most recent call last):\n"
        ++ String.intercalate "\n" tb ∧
    (∀ cls, load_plugin plugin_file (.raised excType excValue tb) b alts ≠
      .ok cls) ∧
    (∀ msg, load_plugin plugin_file (.raised excType excValue tb) b alts ≠
      .pluginErrorRaised msg) := by
  refine ⟨rfl, rfl, fun cls hx => ?_, fun msg hx => ?_⟩
  · simp [load_plugin] at hx
  · simp [load_plugin, loadErrorMessage] at hx

/-- C6 witness: a concrete failed load (nonexistent file) raises the load
error with the assembled diagnostic message. -/
theorem load_failure_raises_load_error_witness :
    load_plugin "missing.py" (.raised "IOError" "No such file or directory"
      ["  File line 1"]) hookBase [] =
      .loadErrorRaised (loadErrorMessage "missing.py" "IOError"
        "No such file or directory" ["  File line 1"]) :=
  (load_failure_raises_load_error "missing.py" "IOError"
    "No such file or directory" ["  File line 1"] hookBase []).1

/-- C7: the candidate pool contains exactly the member classes whose
`__module__` equals the module name, so an imported class is never a
candidate and a returned class always belongs to the loaded unit; the
import-only module fails with zero matches even though its imported class
derives from the base. -/
theorem candidates_only_from_own_module :
    (∀ (m : PyModule) (cls : PyClass),
      cls ∈ allClasses m ↔ cls ∈ m.members ∧ cls.modname = m.mname) ∧
    (∀ (plugin_file : String) (m : PyModule) (b : PyClass)
        (alts : List PyClass) (cls : PyClass),
      load_plugin plugin_file (.loaded m) b alts = .ok cls →
        cls ∈ m.members ∧ cls.modname = m.mname) ∧
    issubclass clsImp hookBase = true ∧
    clsImp ∉ allClasses importModule ∧
    load_plugin "plug.py" (.loaded importModule) hookBase [] =
      .pluginErrorRaised (discoveryErrorMessage "plug.py" "Hook") := by
  have hmem : ∀ (m : PyModule) (cls : PyClass),
      cls ∈ allClasses m ↔ cls ∈ m.members ∧ cls.modname = m.mname := by
    intro m cls
    rw [allClasses, List.mem_filter]
    simp
  refine ⟨hmem, ?_, by decide, by decide, by decide⟩
  intro plugin_file m b alts cls hok
  have hfc := (load_plugin_ok_iff plugin_file m b alts cls).mp hok
  have hin : cls ∈ findClasses (allClasses m) (b :: alts) := by
    rw [hfc]
    exact List.mem_cons_self _ _
  exact (hmem m cls).mp (findClasses_subset _ _ _ hin)

/-- C7 witness: the class returned from the chain module is a member of the
module and carries its module name. -/
theorem candidates_only_from_own_module_witness :
    clsB ∈ chainModule.members ∧ clsB.modname = chainModule.mname :=
  candidates_only_from_own_module.2.1 "plug.py" chainModule hookBase [] clsB
    (by decide)

/-- C8 counterexample: the synthetic identity cannot separate every pair of
distinct paths — the identity is an MD5 digest, whose value space is finite
(`2^128` states), while path strings are unbounded, so two distinct paths
with the same identity must exist. -/
theorem module_uid_not_injective :
    ¬ (∀ p q : String, p ≠ q → module_uid p ≠ module_uid q) := by
  intro hinj
  obtain ⟨m, n, hmn, heq⟩ :=
    Finite.exists_ne_map_eq_of_infinite (fun k : Nat => md5digestFin (pathOfNat k))
  exact hinj (pathOfNat m) (pathOfNat n)
    (fun e => hmn (pathOfNat_injective e))
    (md5hex_eq_of_digestFin_eq _ _ heq)

/-- C8 (amended): the synthetic identity is a pure function of the path
string alone — independent of the file contents — so a reload of the same
path registers under the same identity and the second load's module replaces
the first in the registry; distinct paths receive distinct identities except
for MD5 collisions, which exist in principle because the digest space is
finite. -/
theorem module_uid_deterministic :
    (∀ (sm : List (String × PyModule)) (p : String) (m : PyModule)
        (b : PyClass) (alts : List PyClass),
      (load_pluginS sm p (.loaded m) b alts).2 = dictSet sm (module_uid p) m) ∧
    (∀ (sm : List (String × PyModule)) (p : String) (m1 m2 : PyModule)
        (b : PyClass) (alts : List PyClass),
      dictLookup
        ((load_pluginS ((load_pluginS sm p (.loaded m1) b alts).2) p
          (.loaded m2) b alts).2) (module_uid p) = some m2) :=
  ⟨fun _ _ _ _ _ => rfl,
   fun _ _ _ _ _ _ => dictLookup_dictSet_self _ _ _⟩

/-- C9 counterexample: after a successful return the whole LoadUnit — the
module object with all of its member classes, not merely a used identity —
is still registered in `sys.modules` under the synthetic identity, so the
LoadUnit is not discarded and more than the returned class persists. -/
theorem loadunit_not_discarded_counterexample :
    (load_pluginS [] "plug.py" (.loaded chainModule) hookBase []).1 =
      .ok clsB ∧
    dictLookup (load_pluginS [] "plug.py" (.loaded chainModule) hookBase []).2
      (module_uid "plug.py") = some chainModule ∧
    clsA ∈ chainModule.members ∧ clsA ≠ clsB := by
  decide

/-- C9 (amended): the only state a call leaves behind besides the returned
class is the single `sys.modules` binding of the synthetic identity to the
full loaded module object; a failed load leaves the registry unchanged, and
every key other than the synthetic identity is untouched. -/
theorem sysmodules_only_state_change :
    (∀ (sm : List (String × PyModule)) (p : String) (m : PyModule)
        (b : PyClass) (alts : List PyClass),
      (load_pluginS sm p (.loaded m) b alts).2 = dictSet sm (module_uid p) m) ∧
    (∀ (sm : List (String × PyModule)) (p t v : String) (tb : List String)
        (b : PyClass) (alts : List PyClass),
      (load_pluginS sm p (.raised t v tb) b alts).2 = sm) ∧
    (∀ (sm : List (String × PyModule)) (p : String) (m : PyModule)
        (b : PyClass) (alts : List PyClass) (k : String),
      k ≠ module_uid p →
        dictLookup (load_pluginS sm p (.loaded m) b alts).2 k =
          dictLookup sm k) :=
  ⟨fun _ _ _ _ _ => rfl,
   fun _ _ _ _ _ _ _ => rfl,
   fun sm p m _ _ k hk => dictLookup_dictSet_ne sm (module_uid p) k m hk⟩

/-- C9 witness: a key other than the synthetic identity resolves the same
before and after a successful load. -/
theorem sysmodules_only_state_change_witness :
    "sys" ≠ module_uid "plug.py" ∧
    dictLookup (load_pluginS [] "plug.py" (.loaded chainModule) hookBase []).2
      "sys" = dictLookup [] "sys" :=
  ⟨by decide,
   sysmodules_only_state_change.2.2 [] "plug.py" chainModule hookBase [] "sys"
     (by decide)⟩

/-- C10: for each supported path type, a generation that is neither CORE_V17
nor CORE_V18 makes `get_global_root` fall off the end of both generation
branches and return `None` rather than raising; under a recognized
generation, an unsupported path type on a known platform and an unknown
platform both raise `ValueError`. -/
theorem get_global_root_cases :
    (∀ (env : PyEnv) (pt g : Int),
      (pt = LOGGING ∨ pt = CACHE ∨ pt = PERSISTENT) →
      g ≠ CORE_V17 → g ≠ CORE_V18 → get_global_root env pt g = .ok none) ∧
    (∀ (env : PyEnv) (pt g : Int),
      (g = CORE_V17 ∨ g = CORE_V18) →
      (env.platform = "darwin" ∨ env.platform = "win32" ∨
        startswith env.platform "linux" = true) →
      pt ≠ LOGGING → pt ≠ CACHE → pt ≠ PERSISTENT →
      get_global_root env pt g = .error "Unsupported path type!") ∧
    (∀ (env : PyEnv) (pt g : Int),
      (g = CORE_V17 ∨ g = CORE_V18) →
      env.platform ≠ "darwin" → env.platform ≠ "win32" →
      startswith env.platform "linux" = false →
      get_global_root env pt g = .error ("Unknown platform: " ++ env.platform)) := by
  refine ⟨?_, ?_, ?_⟩
  · intro env pt g _ h17 h18
    rw [get_global_root, if_neg h18, if_neg h17]
  · intro env pt g hg hplat hL hC hP
    rcases hplat with hp | hp | hp
    · rcases hg with hg | hg <;> subst hg
      · rw [get_global_root, if_neg (by decide : ¬ (CORE_V17 = CORE_V18)),
          if_pos rfl, if_pos hp, if_neg hC, if_neg hP, if_neg hL]
      · rw [get_global_root, if_pos rfl, if_pos hp, if_neg hC, if_neg hP,
          if_neg hL]
    · have hd : ¬ env.platform = "darwin" := by rw [hp]; decide
      rcases hg with hg | hg <;> subst hg
      · rw [get_global_root, if_neg (by decide : ¬ (CORE_V17 = CORE_V18)),
          if_pos rfl, if_neg hd, if_pos hp, if_neg hC, if_neg hP, if_neg hL]
      · rw [get_global_root, if_pos rfl, if_neg hd, if_pos hp, if_neg hC,
          if_neg hP, if_neg hL]
    · have hd : ¬ env.platform = "darwin" := by
        intro e
        rw [e] at hp
        exact absurd hp (by decide)
      have hw : ¬ env.platform = "win32" := by
        intro e
        rw [e] at hp
        exact absurd hp (by decide)
      rcases hg with hg | hg <;> subst hg
      · rw [get_global_root, if_neg (by decide : ¬ (CORE_V17 = CORE_V18)),
          if_pos rfl, if_neg hd, if_neg hw, if_pos hp, if_neg hC, if_neg hP,
          if_neg hL]
      · rw [get_global_root, if_pos rfl, if_neg hd, if_neg hw, if_pos hp,
          if_neg hC, if_neg hP, if_neg hL]
  · intro env pt g hg hd hw hlin
    have hlin2 : ¬ startswith env.platform "linux" = true := by
      rw [hlin]
      decide
    rcases hg with hg | hg <;> subst hg
    · rw [get_global_root, if_neg (by decide : ¬ (CORE_V17 = CORE_V18)),
        if_pos rfl, if_neg hd, if_neg hw, if_neg hlin2]
    · rw [get_global_root, if_pos rfl, if_neg hd, if_neg hw, if_neg hlin2]

/-- C10 witness: on a mac host, generation 5 yields `None` for the CACHE
path type; path type 7 under CORE_V18 raises the unsupported-path-type
ValueError; an unrecognized platform raises the unknown-platform ValueError
under CORE_V17. -/
theorem get_global_root_cases_witness :
    get_global_root darwinEnv CACHE 5 = .ok none ∧
    get_global_root darwinEnv 7 CORE_V18 = .error "Unsupported path type!" ∧
    get_global_root sunosEnv CACHE CORE_V17 =
      .error ("Unknown platform: " ++ sunosEnv.platform) :=
  ⟨get_global_root_cases.1 darwinEnv CACHE 5 (Or.inr (Or.inl rfl)) (by decide)
      (by decide),
   get_global_root_cases.2.1 darwinEnv 7 CORE_V18 (Or.inr rfl) (Or.inl rfl)
      (by decide) (by decide) (by decide),
   get_global_root_cases.2.2 sunosEnv CACHE CORE_V17 (Or.inl rfl) (by decide)
      (by decide) (by decide)⟩

end TkCore
